import Mathlib

/-!
# Verification of the Apple Music grabber's session and aggregation logic

Shallow embedding of the second page variant of `src/routes/+page.svelte`
(the "Replay Grabber" variant carrying the paginated recent-tracks loop and
the recovery-based `authorize`), of `extractTopArtists` from the first
variant, and of the store in `$lib/stores/musickit`.

JavaScript conventions are modelled explicitly:
  * `undefined`/missing fields are `Option`;
  * `a || b` on strings falls back on the empty string (JS falsiness);
  * thrown exceptions are `Except` results;
  * the single-threaded event loop makes each handler an atomic transition
    on the store state.
-/

namespace MusicGrabber

/-- JS `a || b` where `a` is a possibly-missing string: the empty string is
falsy, so it also falls through to the default. -/
def jsOr (x : Option String) (dflt : String) : String :=
  match x with
  | some s => if s = "" then dflt else s
  | none => dflt

/-- JS `String.prototype.trim`: strip leading and trailing whitespace. -/
def jsTrim (s : String) : String :=
  ⟨((s.data.dropWhile Char.isWhitespace).reverse.dropWhile Char.isWhitespace).reverse⟩

/-! ## The MusicKit SDK instance, as consumed by `authorize`

The instance object is external; `authorize` consumes it only through
`instance.authorize()`, the `instance.musicUserToken` field (read after a
500 ms delay in the catch block), `instance.isAuthorized`, and the awaited
`instance.api.musicUserToken`.  A `SdkInstance` value records the behaviour
each of those reads exhibits during one `authorize()` run. -/

/-- A thrown MusicKit error object: `errorCode` may be `undefined`;
`message` is `e.message` (possibly empty, i.e. falsy); `str` is the string
coercion `` `${e}` `` used when `message` is falsy. -/
structure AuthError where
  errorCode : Option String
  message : String
  str : String
  deriving Repr, DecidableEq

/-- Behaviour of the SDK instance during one `authorize()` call. -/
structure SdkInstance where
  /-- What `await instance.authorize()` does: returns a token or throws. -/
  authorizeResult : Except AuthError String
  /-- Value of `instance.musicUserToken` as read after the 500 ms delay
  (`""` models an absent/falsy token). -/
  musicUserToken : String
  /-- Value of `instance.isAuthorized` as read after the delay. -/
  isAuthorized : Bool
  /-- What `await instance.api.musicUserToken` does: a token or a thrown
  `apiError` (carried as its message string). -/
  apiMusicUserToken : Except String String
  deriving Repr

/-! ## The store (`$lib/stores/musickit`) -/

/-- Structure `MusicKitState` from `src/lib/stores/musickit.ts`. `instance` is `null`
(`none`) until configuration succeeds. -/
structure MusicKitState where
  isLoaded : Bool
  isConfigured : Bool
  isAuthorized : Bool
  developerToken : String
  musicUserToken : String
  /-- the store's `instance` field (`instance` is reserved in Lean) -/
  sdkInstance : Option SdkInstance
  deriving Repr

/-- The initial store value in `musickit.ts`: everything false/empty/null. -/
def initialState : MusicKitState :=
  { isLoaded := false
    isConfigured := false
    isAuthorized := false
    developerToken := ""
    musicUserToken := ""
    sdkInstance := none }

/-! ## `configureMusicKit` -/

/-- What `musicKit.configure(...)` followed by `musicKit.getInstance()` does
in the environment: throws (also when `window.MusicKit` is `undefined`), or
succeeds and yields the instance. -/
inductive ConfigureOutcome where
  | throws (msg : String)
  | succeeds (inst : SdkInstance)
  deriving Repr

def ConfigureOutcome.isThrows : ConfigureOutcome → Bool
  | .throws _ => true
  | .succeeds _ => false

/-- Result of one `configureMusicKit` run: the store value afterwards, the
`error` message afterwards, and whether the SDK (`musicKit.configure`) was
invoked at all. -/
structure ConfigureResult where
  store : MusicKitState
  error : String
  sdkCalled : Bool
  deriving Repr

/-- Function `configureMusicKit` (second variant, lines 390–419): an all-whitespace
`devToken` fails the `!devToken.trim()` guard before any SDK call; otherwise
`configure` either throws (caught, error set, store untouched) or succeeds,
committing `isConfigured`, the developer token and the instance. -/
def configureMusicKit (devToken : String) (st : MusicKitState)
    (outcome : ConfigureOutcome) : ConfigureResult :=
  if jsTrim devToken = "" then
    { store := st, error := "Please enter a developer token", sdkCalled := false }
  else
    match outcome with
    | .throws msg =>
        { store := st, error := "Configuration failed: " ++ msg, sdkCalled := true }
    | .succeeds inst =>
        { store := { st with isConfigured := true, developerToken := devToken,
                             sdkInstance := some inst }
          error := ""
          sdkCalled := true }

/-! ## `authorize` -/

/-- Result of one `authorize` run: the store afterwards, the `error` message
afterwards, and whether the catch-block side channel
(`instance.musicUserToken` after the 500 ms delay) was consulted. -/
structure AuthResult where
  store : MusicKitState
  error : String
  sideChannelConsulted : Bool
  deriving Repr

/-- The final catch handler of `authorize` (lines 483–491): maps the error's
category to the surfaced message.  Unknown categories surface
`` `Authorization failed: ${e?.message || e}` ``. -/
def authErrorMessage (e : AuthError) : String :=
  if e.errorCode = some "ACCESS_DENIED" then
    "Authorization was denied or cancelled"
  else if e.errorCode = some "CONFIGURATION_ERROR" then
    "Invalid developer token - please check and try again"
  else
    "Authorization failed: " ++ jsOr (some e.message) e.str

/-- Function `authorize` (second variant, lines 421–496).  `error` is reset to `""`
on entry.  With a `null` instance, `instance.authorize()` throws a
`TypeError`; the catch block's `instance.musicUserToken` read then throws
again before the side channel can be observed, reaching the outer handler
(no `errorCode`, so the unknown-category message). -/
def authorize (st : MusicKitState) : AuthResult :=
  match st.sdkInstance with
  | none =>
      { store := st
        error := "Authorization failed: " ++
          "Cannot read properties of null (reading 'musicUserToken')"
        sideChannelConsulted := false }
  | some inst =>
      match inst.authorizeResult with
      | .ok t =>
          if t = "" then
            -- `if (!musicUserToken) throw new Error('No music user token received')`
            { store := st
              error := "Authorization failed: No music user token received"
              sideChannelConsulted := false }
          else
            { store := { st with isAuthorized := true, musicUserToken := t }
              error := ""
              sideChannelConsulted := false }
      | .error e =>
          -- catch block: wait 500 ms, then `if (instance.musicUserToken)`
          if inst.musicUserToken ≠ "" then
            { store := { st with isAuthorized := true,
                                 musicUserToken := inst.musicUserToken }
              error := ""
              sideChannelConsulted := true }
          else if inst.isAuthorized then
            match inst.apiMusicUserToken with
            | .ok t' =>
                if t' = "" then
                  -- `if (!musicUserToken) throw authError`
                  { store := st, error := authErrorMessage e
                    sideChannelConsulted := true }
                else
                  { store := { st with isAuthorized := true, musicUserToken := t' }
                    error := ""
                    sideChannelConsulted := true }
            | .error _ =>
                -- apiError caught and logged; token still missing → rethrow
                { store := st, error := authErrorMessage e
                  sideChannelConsulted := true }
          else
            { store := st, error := authErrorMessage e
              sideChannelConsulted := true }

/-! ## `getReplayData` — the pagination aggregation -/

/-- One HTTP response of the recent-tracks endpoint, as consumed by the
loop: the `ok` flag plus status line (checked first), and the parsed JSON
body's `data` array (possibly absent). -/
structure ApiResponse (α : Type) where
  ok : Bool
  status : Nat
  statusText : String
  data : Option (List α)
  deriving Repr

/-- A successful page response carrying `items` (status 200). -/
def okPage {α : Type} (items : List α) : ApiResponse α :=
  { ok := true, status := 200, statusText := "", data := some items }

/-- An environment for one `getReplayData` run: what the endpoint returns
at each requested `offset`. -/
def FetchEnv (α : Type) := Nat → ApiResponse α

/-- The `for (let offset = 0; offset < 50; offset += 10)` loop body
(lines 520–544), one iteration per recursion step.  Returns the thrown
message or the final `allTracks`, paired with the number of requests
issued.  `fuel` only bounds the recursion depth; the loop's own exit test
is the `offset < 50` guard, exactly as in the source (the top-level call
passes fuel 5, which the guard never exhausts). -/
def fetchTracksLoop {α : Type} (api : FetchEnv α) :
    Nat → Nat → List α → Nat → Except String (List α) × Nat
  | 0, _, allTracks, reqs => (.ok allTracks, reqs)
  | fuel + 1, offset, allTracks, reqs =>
      if offset < 50 then
        let r := api offset
        if r.ok then
          match r.data with
          | some batch =>
              if 0 < batch.length then
                fetchTracksLoop api fuel (offset + 10) (allTracks ++ batch) (reqs + 1)
              else
                (.ok allTracks, reqs + 1)  -- `break`
          | none => (.ok allTracks, reqs + 1)  -- `batch.data` falsy → `break`
        else
          (.error ("Recent tracks API failed: " ++ toString r.status ++ " " ++
             r.statusText), reqs + 1)
      else
        (.ok allTracks, reqs)

/-- The `{ data: allTracks }` object assigned to `recentTracks`. -/
structure TracksPayload (α : Type) where
  data : Option (List α)
  deriving Repr

/-- Observable outcome of one `getReplayData` run: the `recentTracks`
state afterwards, the `error` message afterwards, and how many page
requests were issued. -/
structure ReplayOutcome (α : Type) where
  recentTracks : Option (TracksPayload α)
  error : String
  requests : Nat
  deriving Repr

/-- Function `getReplayData` (second variant, lines 498–555), restricted to its
observable effects on `recentTracks`/`error`.  `prev` is the value of
`recentTracks` before the call: the function clears it (`recentTracks =
null`) before fetching, so a failure leaves it `null` whatever was there
before.  On success `recentTracks = { data: allTracks }`; on a thrown
fetch error the catch block sets `` `Failed to fetch data: ${e}` ``
(`${e}` on the thrown `Error` prints as `Error: <message>`). -/
def getReplayData {α : Type} (prev : Option (TracksPayload α))
    (api : FetchEnv α) : ReplayOutcome α :=
  let _ := prev  -- cleared on entry; the outcome never depends on it
  match fetchTracksLoop api 5 0 [] 0 with
  | (.ok allTracks, reqs) =>
      { recentTracks := some { data := some allTracks }, error := "", requests := reqs }
  | (.error msg, reqs) =>
      { recentTracks := none, error := "Failed to fetch data: Error: " ++ msg
        requests := reqs }

/-- An API that serves a fixed list of pages: the request at `offset`
gets page number `offset / 10` (every page a 200 response; offsets past
the end of the list get an empty `data` array, as a drained endpoint
does). -/
def pagesAPI {α : Type} (pages : List (List α)) : FetchEnv α :=
  fun offset => okPage (pages.getD (offset / 10) [])

/-! ## Result normalizers -/

/-- Field `playParams` of a raw track item (only `playlistId` is consumed). -/
structure PlayParams where
  playlistId : Option String
  deriving Repr, DecidableEq

/-- Field `attributes` of a raw recent-track item; every consumed field may be
absent. -/
structure TrackAttrs where
  name : Option String
  artistName : Option String
  albumName : Option String
  playParams : Option PlayParams
  deriving Repr, DecidableEq

/-- A raw item of the recent-tracks response (`attributes` may be absent). -/
structure RecentItem where
  attributes : Option TrackAttrs
  deriving Repr, DecidableEq

/-- The flat record produced per recent track. -/
structure TrackRecord where
  title : String
  artist : String
  album : String
  playedAt : String
  deriving Repr, DecidableEq

/-- The per-item mapping inside `extractRecentTracks` (lines 560–565). -/
def mkTrackRecord (item : RecentItem) : TrackRecord :=
  { title := jsOr (item.attributes.bind (·.name)) "Unknown"
    artist := jsOr (item.attributes.bind (·.artistName)) "Unknown"
    album := jsOr (item.attributes.bind (·.albumName)) "Unknown"
    playedAt := jsOr ((item.attributes.bind (·.playParams)).bind (·.playlistId)) "" }

/-- Function `extractRecentTracks` (second variant, lines 557–566): guard
`!recentTracks?.data`, then a plain `.map` over the items. -/
def extractRecentTracks (recentTracks : Option (TracksPayload RecentItem)) :
    List TrackRecord :=
  match recentTracks with
  | none => []
  | some payload =>
      match payload.data with
      | none => []
      | some items => items.map mkTrackRecord

/-- The track list as the template renders it (`{#each ... as track, i}`
with `{i + 1}` as the displayed number): each record paired with its
1-based display rank. -/
def renderRecentTracks (recentTracks : Option (TracksPayload RecentItem)) :
    List (Nat × TrackRecord) :=
  (extractRecentTracks recentTracks).enum.map (fun p => (p.1 + 1, p.2))

/-! ## `extractTopArtists` (first page variant, lines 122–145) -/

/-- Field `attributes` of a raw replay item, as consumed by `extractTopArtists`;
`name` itself may be absent (`item.attributes.name` is then `undefined`). -/
structure ArtistAttrs where
  name : Option String
  playCount : Option Nat
  playDuration : Option Nat
  deriving Repr, DecidableEq

/-- A raw item of the replay response. -/
structure ReplayItem where
  type : String
  attributes : Option ArtistAttrs
  deriving Repr, DecidableEq

/-- The object stored per artist in the `artistsMap`. -/
structure ArtistRecord where
  name : Option String
  playCount : Nat
  playDuration : Nat
  durationMinutes : Nat
  deriving Repr, DecidableEq

/-- The per-item record built in the loop body: `playCount || 0`,
`playDuration || 0` (0 is falsy, so `getD 0` coincides), and
`Math.round(playDuration / 60000)`, which for a nonnegative integral
duration is `⌊(2·playDuration + 60000) / 120000⌋`. -/
def mkArtistRecord (a : ArtistAttrs) : ArtistRecord :=
  let playCount := a.playCount.getD 0
  let playDuration := a.playDuration.getD 0
  { name := a.name
    playCount := playCount
    playDuration := playDuration
    durationMinutes := (2 * playDuration + 60000) / 120000 }

/-- Operation `Map.set` on an insertion-ordered map (JS `Map` semantics: setting an
existing key updates the value in place, keeping its original position;
a new key is appended). -/
def mapSet (m : List (Option String × ArtistRecord)) (k : Option String)
    (v : ArtistRecord) : List (Option String × ArtistRecord) :=
  if m.any (fun kv => kv.1 = k) then
    m.map (fun kv => if kv.1 = k then (k, v) else kv)
  else
    m ++ [(k, v)]

/-- The `for (const item of replayData.data)` loop filling `artistsMap`:
only items with `type === 'artists'` and truthy `attributes` contribute. -/
def artistStep (m : List (Option String × ArtistRecord)) (item : ReplayItem) :
    List (Option String × ArtistRecord) :=
  match item.attributes with
  | some a => if item.type = "artists" then mapSet m a.name (mkArtistRecord a) else m
  | none => m

def buildArtistsMap (items : List ReplayItem) :
    List (Option String × ArtistRecord) :=
  items.foldl artistStep []

/-- The filter the loop body applies: an item contributes its attributes
exactly when `item.type === 'artists'` and `item.attributes` is truthy. -/
def artistOf (item : ReplayItem) : Option ArtistAttrs :=
  match item.attributes with
  | some a => if item.type = "artists" then some a else none
  | none => none

/-- The order produced by the comparator `(a, b) => b.playCount - a.playCount`:
descending play count. -/
def byPlayCountDesc (a b : ArtistRecord) : Prop :=
  b.playCount ≤ a.playCount

instance : DecidableRel byPlayCountDesc :=
  fun a b => decidable_of_iff (b.playCount ≤ a.playCount) Iff.rfl

instance : IsTotal ArtistRecord byPlayCountDesc :=
  ⟨fun a b => Nat.le_total b.playCount a.playCount⟩

instance : IsTrans ArtistRecord byPlayCountDesc :=
  ⟨fun _ _ _ hab hbc => Nat.le_trans hbc hab⟩

/-- Function `extractTopArtists` (first variant):
`Array.from(artistsMap.values()).sort((a, b) => b.playCount - a.playCount).slice(0, 20)`.
JS `Array.prototype.sort` is a stable sort w.r.t. the comparator's total
preorder, which `List.insertionSort` models exactly. -/
def extractTopArtists (replayData : Option (TracksPayload ReplayItem)) :
    List ArtistRecord :=
  match replayData with
  | none => []
  | some payload =>
      match payload.data with
      | none => []
      | some items =>
          (((buildArtistsMap items).map (fun kv => kv.2)).insertionSort
            byPlayCountDesc).take 20

/-- The artist items of the input, in the order they appear (the
projection the input-order claims quantify over). -/
def artistItems (replayData : Option (TracksPayload ReplayItem)) :
    List ArtistAttrs :=
  match replayData with
  | none => []
  | some payload =>
      match payload.data with
      | none => []
      | some items => items.filterMap artistOf

/-! ## The session transition system (for the state-machine claims)

One `World` is the store value plus whether `window.MusicKit` exists.  The
SDK script publishes `window.MusicKit` and dispatches `musickitloaded` in
one synchronous act, and the handlers installed in `onMount` (lines
372–388) set `isLoaded` from either the existing global or that event;
the single-threaded event loop therefore makes "the SDK becomes present
and `isLoaded` is set" one atomic transition.  `configureMusicKit` can
only reach the SDK when `window.MusicKit` exists: with it absent,
`musicKit.configure` throws, which the guard on the `configure` step
records. -/

structure World where
  store : MusicKitState
  sdkPresent : Bool

/-- The world before the SDK loads: the initial store, no SDK global. -/
def initialWorld : World := ⟨initialState, false⟩

/-- The caller-invocable transitions: the SDK-ready update, a
`configureMusicKit` click (with the environment's configure outcome,
forced to throw while the SDK global is absent), and an `authorize`
click. -/
inductive Step : World → World → Prop
  | sdkLoaded (w : World) :
      Step w ⟨{ w.store with isLoaded := true }, true⟩
  | configure (w : World) (tok : String) (outcome : ConfigureOutcome)
      (h : w.sdkPresent = false → outcome.isThrows = true) :
      Step w ⟨(configureMusicKit tok w.store outcome).store, w.sdkPresent⟩
  | auth (w : World) :
      Step w ⟨(authorize w.store).store, w.sdkPresent⟩

/-- Worlds reachable from the initial world by the transitions. -/
def Reachable (w : World) : Prop :=
  Relation.ReflTransGen Step initialWorld w

/-- The spec's session-state invariants. -/
def StoreInv (s : MusicKitState) : Prop :=
  (s.isConfigured = true → s.isLoaded = true) ∧
  (s.isAuthorized = true → s.isConfigured = true) ∧
  (s.musicUserToken ≠ "" → s.isAuthorized = true)

/-- Auxiliary invariants carried through the induction: the SDK global
cannot exist before the ready update ran, and the store only holds an
instance once configured. -/
def WorldInv (w : World) : Prop :=
  StoreInv w.store ∧
  (w.sdkPresent = true → w.store.isLoaded = true) ∧
  (w.store.sdkInstance.isSome = true → w.store.isConfigured = true)

/-- Monotonicity of the three flags across one transition. -/
def MonoFlags (s t : MusicKitState) : Prop :=
  (s.isLoaded = true → t.isLoaded = true) ∧
  (s.isConfigured = true → t.isConfigured = true) ∧
  (s.isAuthorized = true → t.isAuthorized = true)

/-! ## Helper lemmas on strings -/

theorem string_append_ne_of_take_ne (p q s : String)
    (h : q.data.take p.data.length ≠ p.data) : p ++ s ≠ q := by
  intro hc
  apply h
  have hd := congrArg String.data hc
  rw [String.data_append] at hd
  rw [← hd, List.take_left]

theorem string_append_ne_empty (p s : String) (h : p ≠ "") : p ++ s ≠ "" := by
  intro hc
  apply h
  have hd := congrArg String.data hc
  rw [String.data_append] at hd
  have hnil : p.data = [] ∧ s.data = [] := List.append_eq_nil.mp (by simpa using hd)
  exact String.ext (by simp [hnil.1])

/-- A sample SDK instance for concrete instantiations: `authorize()`
returns the token directly. -/
def directInstance : SdkInstance :=
  { authorizeResult := .ok "user-token"
    musicUserToken := ""
    isAuthorized := false
    apiMusicUserToken := .error "not consulted" }

/-! ## Claim theorems -/

/-- C9: with an empty (or whitespace-only) developer token,
`configureMusicKit` sets an error message, leaves the store untouched, and
never invokes the SDK, whatever the SDK would have done. -/
theorem configure_blank_token_fails_without_sdk
    (devToken : String) (st : MusicKitState) (outcome : ConfigureOutcome)
    (h : jsTrim devToken = "") :
    (configureMusicKit devToken st outcome).store = st ∧
    (configureMusicKit devToken st outcome).error = "Please enter a developer token" ∧
    (configureMusicKit devToken st outcome).error ≠ "" ∧
    (configureMusicKit devToken st outcome).sdkCalled = false := by
  simp [configureMusicKit, h]

/-- Witness for C9: the whitespace-only token `"   "` at the initial
store. -/
theorem configure_blank_token_fails_without_sdk_witness :
    (jsTrim "   " = "") ∧
    ((configureMusicKit "   " initialState (.succeeds directInstance)).store
        = initialState ∧
      (configureMusicKit "   " initialState (.succeeds directInstance)).error
        = "Please enter a developer token" ∧
      (configureMusicKit "   " initialState (.succeeds directInstance)).error ≠ "" ∧
      (configureMusicKit "   " initialState (.succeeds directInstance)).sdkCalled
        = false) :=
  ⟨by decide,
   configure_blank_token_fails_without_sdk "   " initialState
     (.succeeds directInstance) (by decide)⟩

/-- C2: when `instance.authorize()` throws but the side channel
(`instance.musicUserToken`, read after the delay) is non-empty, `authorize`
commits the side-channel credential, marks the session authorized, and
surfaces no error. -/
theorem authorize_recovers_via_side_channel
    (st : MusicKitState) (i : SdkInstance) (e : AuthError)
    (hinst : st.sdkInstance = some i)
    (herr : i.authorizeResult = .error e)
    (htok : i.musicUserToken ≠ "") :
    (authorize st).store
      = { st with isAuthorized := true, musicUserToken := i.musicUserToken } ∧
    (authorize st).store.isAuthorized = true ∧
    (authorize st).store.musicUserToken = i.musicUserToken ∧
    (authorize st).error = "" := by
  simp [authorize, hinst, herr, htok]

/-- An SDK instance whose `authorize()` throws a storefront error while the
token is in fact present on the instance. -/
def spuriousErrorInstance : SdkInstance :=
  { authorizeResult := .error { errorCode := some "UNSUPPORTED_ERROR"
                                message := "storefront mismatch"
                                str := "Error: storefront mismatch" }
    musicUserToken := "recovered-token"
    isAuthorized := true
    apiMusicUserToken := .error "not consulted" }

/-- The store after a successful configuration, used to instantiate the
authorization theorems. -/
def configuredState (i : SdkInstance) : MusicKitState :=
  { initialState with isLoaded := true, isConfigured := true,
                      developerToken := "dev-token", sdkInstance := some i }

/-- Witness for C2: a thrown storefront error with the token present on
the instance. -/
theorem authorize_recovers_via_side_channel_witness :
    (authorize (configuredState spuriousErrorInstance)).store
      = { configuredState spuriousErrorInstance with
            isAuthorized := true, musicUserToken := "recovered-token" } ∧
    (authorize (configuredState spuriousErrorInstance)).store.isAuthorized = true ∧
    (authorize (configuredState spuriousErrorInstance)).store.musicUserToken
      = "recovered-token" ∧
    (authorize (configuredState spuriousErrorInstance)).error = "" :=
  authorize_recovers_via_side_channel (configuredState spuriousErrorInstance)
    spuriousErrorInstance
    { errorCode := some "UNSUPPORTED_ERROR", message := "storefront mismatch"
      str := "Error: storefront mismatch" }
    rfl rfl (by decide)

/-- C7: when `instance.authorize()` returns a non-empty credential without
throwing, `authorize` commits exactly that credential and the catch-block
side channel is never consulted. -/
theorem authorize_direct_success_skips_side_channel
    (st : MusicKitState) (i : SdkInstance) (t : String)
    (hinst : st.sdkInstance = some i)
    (hok : i.authorizeResult = .ok t)
    (hne : t ≠ "") :
    (authorize st).store = { st with isAuthorized := true, musicUserToken := t } ∧
    (authorize st).error = "" ∧
    (authorize st).sideChannelConsulted = false := by
  simp [authorize, hinst, hok, hne]

/-- Witness for C7: `authorize()` returns `"user-token"` directly. -/
theorem authorize_direct_success_skips_side_channel_witness :
    (authorize (configuredState directInstance)).store
      = { configuredState directInstance with
            isAuthorized := true, musicUserToken := "user-token" } ∧
    (authorize (configuredState directInstance)).error = "" ∧
    (authorize (configuredState directInstance)).sideChannelConsulted = false :=
  authorize_direct_success_skips_side_channel (configuredState directInstance)
    directInstance "user-token" rfl rfl (by decide)

/-- C3: when `instance.authorize()` throws and the whole recovery attempt
yields no token (`instance.musicUserToken` stays empty and the
`isAuthorized`/`api` fallback produces nothing), the store is left exactly
as it was and the surfaced message preserves the error's category:
`ACCESS_DENIED` and `CONFIGURATION_ERROR` each get their dedicated message,
any other error the generic `Authorization failed: ...` prefix, and the
three shapes are pairwise distinct. -/
theorem authorize_genuine_failure_preserves_state_and_category
    (st : MusicKitState) (i : SdkInstance) (e : AuthError)
    (hinst : st.sdkInstance = some i)
    (herr : i.authorizeResult = .error e)
    (hempty : i.musicUserToken = "")
    (hapi : i.isAuthorized = true →
      i.apiMusicUserToken = .ok "" ∨ ∃ m, i.apiMusicUserToken = .error m) :
    (authorize st).store = st ∧
    (authorize st).error = authErrorMessage e ∧
    (authorize st).error ≠ "" ∧
    (e.errorCode = some "ACCESS_DENIED" →
      (authorize st).error = "Authorization was denied or cancelled") ∧
    (e.errorCode = some "CONFIGURATION_ERROR" →
      (authorize st).error = "Invalid developer token - please check and try again") ∧
    (e.errorCode ≠ some "ACCESS_DENIED" → e.errorCode ≠ some "CONFIGURATION_ERROR" →
      (authorize st).error = "Authorization failed: " ++ jsOr (some e.message) e.str) ∧
    (∀ s : String, "Authorization failed: " ++ s ≠ "Authorization was denied or cancelled") ∧
    (∀ s : String,
      "Authorization failed: " ++ s ≠ "Invalid developer token - please check and try again") := by
  have hmsg : (authorize st).store = st ∧ (authorize st).error = authErrorMessage e := by
    rcases hA : i.isAuthorized with _ | _
    · simp [authorize, hinst, herr, hempty, hA]
    · rcases hapi hA with hok | ⟨m, hm⟩
      · simp [authorize, hinst, herr, hempty, hA, hok]
      · simp [authorize, hinst, herr, hempty, hA, hm]
  refine ⟨hmsg.1, hmsg.2, ?_, ?_, ?_, ?_, ?_, ?_⟩
  · rw [hmsg.2, authErrorMessage]
    split
    · decide
    · split
      · decide
      · exact string_append_ne_empty _ _ (by decide)
  · intro hc; rw [hmsg.2]; simp [authErrorMessage, hc]
  · intro hc; rw [hmsg.2, authErrorMessage, hc]; simp
  · intro h₁ h₂; rw [hmsg.2]; simp [authErrorMessage, h₁, h₂]
  · intro s; exact string_append_ne_of_take_ne _ _ _ (by decide)
  · intro s; exact string_append_ne_of_take_ne _ _ _ (by decide)

/-- An SDK instance whose `authorize()` throws an access-denied error and
where no recovery read produces a token. -/
def deniedInstance : SdkInstance :=
  { authorizeResult := .error { errorCode := some "ACCESS_DENIED"
                                message := "user cancelled"
                                str := "Error: user cancelled" }
    musicUserToken := ""
    isAuthorized := false
    apiMusicUserToken := .error "no token" }

/-- Witness for C3: a genuine denial at a configured store. -/
theorem authorize_genuine_failure_witness :
    (authorize (configuredState deniedInstance)).store
      = configuredState deniedInstance ∧
    (authorize (configuredState deniedInstance)).error
      = "Authorization was denied or cancelled" ∧
    (authorize (configuredState deniedInstance)).error ≠ "" := by
  have h := authorize_genuine_failure_preserves_state_and_category
    (configuredState deniedInstance) deniedInstance
    { errorCode := some "ACCESS_DENIED", message := "user cancelled"
      str := "Error: user cancelled" }
    rfl rfl rfl (by intro hc; exact absurd hc (by decide))
  exact ⟨h.1, h.2.2.2.1 rfl, by rw [h.2.2.2.1 rfl]; decide⟩

/-- C8: the recent-track normalizer is total — one record per input item —
with every display field a non-empty string, the `"Unknown"` sentinel
whenever the corresponding attribute is absent, and the rendered rank of
the record at position `i` equal to `i + 1`. -/
theorem recent_normalizer_total_sentinels_and_rank
    (items : List RecentItem) :
    (extractRecentTracks (some { data := some items })).length = items.length ∧
    (∀ (i : Nat) (item : RecentItem) (rec : TrackRecord),
      items[i]? = some item →
      (extractRecentTracks (some { data := some items }))[i]? = some rec →
      (rec.title ≠ "" ∧ rec.artist ≠ "" ∧ rec.album ≠ "") ∧
      (item.attributes.bind (fun a => a.name) = none → rec.title = "Unknown") ∧
      (item.attributes.bind (fun a => a.artistName) = none → rec.artist = "Unknown") ∧
      (item.attributes.bind (fun a => a.albumName) = none → rec.album = "Unknown") ∧
      (renderRecentTracks (some { data := some items }))[i]? = some (i + 1, rec)) := by
  constructor
  · simp [extractRecentTracks]
  · intro i item rec hitem hrec
    have hout : (extractRecentTracks (some { data := some items }))[i]?
        = some (mkTrackRecord item) := by
      simp [extractRecentTracks, hitem]
    have hrec' : rec = mkTrackRecord item := by
      rw [hout] at hrec; exact (Option.some_inj.mp hrec).symm
    subst hrec'
    have hne : ∀ (x : Option String), jsOr x "Unknown" ≠ "" := by
      intro x
      rcases x with _ | s
      · decide
      · by_cases hs : s = "" <;> simp [jsOr, hs]
    refine ⟨⟨hne _, hne _, hne _⟩, ?_, ?_, ?_, ?_⟩
    · intro h; simp [mkTrackRecord, h, jsOr]
    · intro h; simp [mkTrackRecord, h, jsOr]
    · intro h; simp [mkTrackRecord, h, jsOr]
    · simp [renderRecentTracks, List.enum, hout]

/-- Witness for C8: a single raw item with no attributes at all is mapped
to a full sentinel record displayed at rank 1. -/
theorem recent_normalizer_total_witness :
    (extractRecentTracks (some { data := some [{ attributes := none }] })).length
      = 1 ∧
    (renderRecentTracks (some { data := some [{ attributes := none }] }))[0]?
      = some (1, { title := "Unknown", artist := "Unknown", album := "Unknown",
                   playedAt := "" }) :=
  ⟨(recent_normalizer_total_sentinels_and_rank [{ attributes := none }]).1,
   ((recent_normalizer_total_sentinels_and_rank [{ attributes := none }]).2 0
      { attributes := none }
      { title := "Unknown", artist := "Unknown", album := "Unknown", playedAt := "" }
      rfl rfl).2.2.2.2⟩

/-- Every `authorize` run either leaves the store untouched or commits a
non-empty token together with `isAuthorized`, and it can only commit when
an instance is stored. -/
theorem authorize_store_shape (st : MusicKitState) :
    (authorize st).store = st ∨
    (st.sdkInstance.isSome = true ∧ ∃ t, t ≠ "" ∧
      (authorize st).store = { st with isAuthorized := true, musicUserToken := t }) := by
  cases hs : st.sdkInstance with
  | none => left; simp [authorize, hs]
  | some i =>
    cases hres : i.authorizeResult with
    | ok t =>
      by_cases ht : t = ""
      · left; simp [authorize, hs, hres, ht]
      · right; exact ⟨by simp [hs], t, ht, by simp [authorize, hs, hres, ht]⟩
    | error e =>
      by_cases htok : i.musicUserToken = ""
      · cases hA : i.isAuthorized with
        | false => left; simp [authorize, hs, hres, htok, hA]
        | true =>
          cases hapi : i.apiMusicUserToken with
          | ok t' =>
            by_cases ht' : t' = ""
            · left; simp [authorize, hs, hres, htok, hA, hapi, ht']
            · right
              exact ⟨by simp [hs], t', ht',
                by simp [authorize, hs, hres, htok, hA, hapi, ht']⟩
          | error m => left; simp [authorize, hs, hres, htok, hA, hapi]
      · right
        exact ⟨by simp [hs], i.musicUserToken, htok,
          by simp [authorize, hs, hres, htok]⟩

/-- One transition preserves the session invariants. -/
theorem worldInv_step {w w' : World} (hw : WorldInv w) (h : Step w w') :
    WorldInv w' := by
  obtain ⟨⟨h1, h2, h3⟩, h4, h5⟩ := hw
  cases h with
  | sdkLoaded =>
      exact ⟨⟨fun _ => rfl, fun ha => h2 ha, fun ht => h3 ht⟩, fun _ => rfl,
        fun hi => h5 hi⟩
  | configure tok outcome hg =>
      by_cases htr : jsTrim tok = ""
      · simpa [configureMusicKit, htr] using ⟨⟨h1, h2, h3⟩, h4, h5⟩
      · cases outcome with
        | throws msg => simpa [configureMusicKit, htr] using ⟨⟨h1, h2, h3⟩, h4, h5⟩
        | succeeds inst =>
            have hp : w.sdkPresent = true := by
              cases hpc : w.sdkPresent with
              | false => exact absurd (hg hpc) (by simp [ConfigureOutcome.isThrows])
              | true => rfl
            have hload : w.store.isLoaded = true := h4 hp
            refine ⟨⟨?_, ?_, ?_⟩, ?_, ?_⟩
            · intro _; simpa [configureMusicKit, htr] using hload
            · intro _; simp [configureMusicKit, htr]
            · intro ht
              have ht' : w.store.musicUserToken ≠ "" := by
                simpa [configureMusicKit, htr] using ht
              simpa [configureMusicKit, htr] using h3 ht'
            · intro _; simpa [configureMusicKit, htr] using hload
            · intro _; simp [configureMusicKit, htr]
  | auth =>
      rcases authorize_store_shape w.store with hsame | ⟨hsome, t, htne, hcommit⟩
      · exact ⟨⟨by rw [hsame]; exact h1, by rw [hsame]; exact h2,
          by rw [hsame]; exact h3⟩, by rw [hsame]; exact h4, by rw [hsame]; exact h5⟩
      · rw [hcommit]
        exact ⟨⟨fun hc => h1 hc, fun _ => h5 hsome, fun _ => rfl⟩,
          fun hp => h4 hp, fun _ => h5 hsome⟩

/-- One transition never clears a flag. -/
theorem step_monotone {w w' : World} (h : Step w w') :
    MonoFlags w.store w'.store := by
  cases h with
  | sdkLoaded => exact ⟨fun _ => rfl, fun hc => hc, fun ha => ha⟩
  | configure tok outcome hg =>
      by_cases htr : jsTrim tok = ""
      · simp [MonoFlags, configureMusicKit, htr]
      · cases outcome with
        | throws msg => simp [MonoFlags, configureMusicKit, htr]
        | succeeds inst => simp [MonoFlags, configureMusicKit, htr]
  | auth =>
      rcases authorize_store_shape w.store with hsame | ⟨_, t, _, hcommit⟩
      · rw [hsame]; exact ⟨fun hl => hl, fun hc => hc, fun ha => ha⟩
      · rw [hcommit]; exact ⟨fun hl => hl, fun hc => hc, fun _ => rfl⟩

/-- The initial world satisfies the invariants. -/
theorem worldInv_initial : WorldInv initialWorld := by
  refine ⟨⟨?_, ?_, ?_⟩, ?_, ?_⟩ <;> simp [initialWorld, initialState, StoreInv]

/-- C6: along every sequence of transitions from the initial state, the
session invariants hold — `isConfigured` implies `isLoaded`,
`isAuthorized` implies `isConfigured`, a non-empty `musicUserToken`
implies `isAuthorized` — and no single transition ever flips a true flag
back to false. -/
theorem session_invariants_and_monotonicity :
    (∀ w : World, Reachable w →
      (w.store.isConfigured = true → w.store.isLoaded = true) ∧
      (w.store.isAuthorized = true → w.store.isConfigured = true) ∧
      (w.store.musicUserToken ≠ "" → w.store.isAuthorized = true)) ∧
    (∀ w w' : World, Step w w' → MonoFlags w.store w'.store) := by
  constructor
  · intro w hreach
    have : WorldInv w := by
      induction hreach with
      | refl => exact worldInv_initial
      | tail _ hstep ih => exact worldInv_step ih hstep
    exact this.1
  · intro w w' hstep
    exact step_monotone hstep

/-- Witness for C6: the invariants at a concrete reachable world (initial
world, then the SDK-ready update), and monotonicity across that step. -/
theorem session_invariants_witness :
    ((⟨{ initialState with isLoaded := true }, true⟩ : World).store.isConfigured = true →
      (⟨{ initialState with isLoaded := true }, true⟩ : World).store.isLoaded = true) ∧
    MonoFlags initialWorld.store
      (⟨{ initialState with isLoaded := true }, true⟩ : World).store :=
  ⟨(session_invariants_and_monotonicity.1
      ⟨{ initialState with isLoaded := true }, true⟩
      (Relation.ReflTransGen.single (Step.sdkLoaded initialWorld))).1,
   session_invariants_and_monotonicity.2 initialWorld
      ⟨{ initialState with isLoaded := true }, true⟩
      (Step.sdkLoaded initialWorld)⟩

/-! ## Lemmas about the pagination loop -/

/-- One loop iteration on a non-empty successful batch. -/
theorem fetchTracksLoop_step {α : Type} (api : FetchEnv α) (fuel offset : Nat)
    (acc : List α) (reqs : Nat) (batch : List α)
    (hoff : offset < 50)
    (hok : (api offset).ok = true)
    (hdata : (api offset).data = some batch)
    (hne : 0 < batch.length) :
    fetchTracksLoop api (fuel + 1) offset acc reqs
      = fetchTracksLoop api fuel (offset + 10) (acc ++ batch) (reqs + 1) := by
  simp [fetchTracksLoop, hoff, hok, hdata, hne]

/-- The loop stops (keeping `allTracks`) on an empty batch. -/
theorem fetchTracksLoop_stop_empty {α : Type} (api : FetchEnv α)
    (fuel offset : Nat) (acc : List α) (reqs : Nat) (batch : List α)
    (hoff : offset < 50)
    (hok : (api offset).ok = true)
    (hdata : (api offset).data = some batch)
    (hlen : batch.length = 0) :
    fetchTracksLoop api (fuel + 1) offset acc reqs = (.ok acc, reqs + 1) := by
  simp [fetchTracksLoop, hoff, hok, hdata, hlen]

/-- The loop throws on a non-2xx response. -/
theorem fetchTracksLoop_stop_error {α : Type} (api : FetchEnv α)
    (fuel offset : Nat) (acc : List α) (reqs : Nat)
    (hoff : offset < 50)
    (hbad : (api offset).ok = false) :
    fetchTracksLoop api (fuel + 1) offset acc reqs
      = (.error ("Recent tracks API failed: " ++ toString (api offset).status
          ++ " " ++ (api offset).statusText), reqs + 1) := by
  simp [fetchTracksLoop, hoff, hbad]

/-- The loop exits once `offset < 50` fails. -/
theorem fetchTracksLoop_stop_guard {α : Type} (api : FetchEnv α)
    (fuel offset : Nat) (acc : List α) (reqs : Nat)
    (hoff : ¬ offset < 50) :
    fetchTracksLoop api (fuel + 1) offset acc reqs = (.ok acc, reqs) := by
  simp [fetchTracksLoop, hoff]

/-- The loop issues at most `fuel` further requests. -/
theorem fetchTracksLoop_requests_le {α : Type} (api : FetchEnv α) :
    ∀ (fuel offset : Nat) (acc : List α) (reqs : Nat),
      (fetchTracksLoop api fuel offset acc reqs).2 ≤ reqs + fuel := by
  intro fuel
  induction fuel with
  | zero => intro offset acc reqs; simp [fetchTracksLoop]
  | succ n ih =>
      intro offset acc reqs
      simp only [fetchTracksLoop]
      split
      · split
        · split
          · split
            · exact Nat.le_trans (ih _ _ _) (by omega)
            · simp
          · simp
        · simp
      · simp

/-- With every page bounded by the requested limit, the loop's result
carries at most `acc.length + 10 * fuel` items. -/
theorem fetchTracksLoop_length_le {α : Type} (api : FetchEnv α)
    (hb : ∀ off l, (api off).data = some l → l.length ≤ 10) :
    ∀ (fuel offset : Nat) (acc : List α) (reqs : Nat) (out : List α),
      (fetchTracksLoop api fuel offset acc reqs).1 = .ok out →
      out.length ≤ acc.length + 10 * fuel := by
  intro fuel
  induction fuel with
  | zero =>
      intro offset acc reqs out h
      obtain rfl : acc = out := by simpa [fetchTracksLoop] using h
      simp
  | succ n ih =>
      intro offset acc reqs out h
      simp only [fetchTracksLoop] at h
      split at h
      · split at h
        · split at h
          · next batch hdata =>
              split at h
              · have hrec := ih _ _ _ _ h
                have hlen := hb offset batch hdata
                simp [List.length_append] at hrec
                omega
              · obtain rfl : acc = out := by simpa using h
                omega
          · obtain rfl : acc = out := by simpa using h
            omega
        · simp at h
      · obtain rfl : acc = out := by simpa using h
        omega

/-- Reaching page `i`: after `i` non-empty full-response pages served by
`L`, the loop state is the concatenation of those pages, with `i` requests
done and `10·i` as the next offset. -/
theorem fetchTracksLoop_reach {α : Type} (api : FetchEnv α) (L : Nat → List α) :
    ∀ i : Nat, i ≤ 5 →
      (∀ j, j < i → (api (10 * j)).ok = true ∧
        (api (10 * j)).data = some (L j) ∧ 0 < (L j).length) →
      fetchTracksLoop api 5 0 [] 0
        = fetchTracksLoop api (5 - i) (10 * i) ((List.range i).map L).flatten i := by
  intro i
  induction i with
  | zero => intro _ _; simp
  | succ m ih =>
      intro hle hpages
      have hstep := hpages m (by omega)
      have heq := ih (by omega) (fun j hj => hpages j (by omega))
      rw [heq]
      have hfuel : 5 - m = (5 - (m + 1)) + 1 := by omega
      rw [hfuel, fetchTracksLoop_step api _ _ _ _ (L m) (by omega) hstep.1
        hstep.2.1 hstep.2.2]
      rw [List.range_succ, List.map_append, List.flatten_append]
      simp [Nat.mul_add]

/-- C10: whatever the endpoint returns, `getReplayData` issues at most 5
page requests; if each page respects the requested `limit=10`, the
aggregate holds at most 50 items; and after 5 full pages the loop stops at
exactly 5 requests, never issuing a sixth. -/
theorem pagination_bounded_requests_and_items {α : Type}
    (prev : Option (TracksPayload α)) (api : FetchEnv α) :
    (getReplayData prev api).requests ≤ 5 ∧
    ((∀ off l, (api off).data = some l → l.length ≤ 10) →
      ∀ out, (getReplayData prev api).recentTracks = some { data := some out } →
        out.length ≤ 50) ∧
    ((∀ j, j < 5 → (api (10 * j)).ok = true ∧
        ∃ l, (api (10 * j)).data = some l ∧ l.length = 10) →
      (getReplayData prev api).requests = 5) := by
  refine ⟨?_, ?_, ?_⟩
  · have h := fetchTracksLoop_requests_le api 5 0 [] 0
    unfold getReplayData
    split <;> simp_all
  · intro hb out hout
    unfold getReplayData at hout
    split at hout
    · next allTracks reqs hloop =>
        have h1 : (fetchTracksLoop api 5 0 [] 0).1 = .ok allTracks := by
          rw [hloop]
        have := fetchTracksLoop_length_le api hb 5 0 [] 0 allTracks h1
        simp at hout
        subst hout
        simpa using this
    · simp at hout
  · intro hfull
    choose hok L hdata hlen using hfull
    have hreach := fetchTracksLoop_reach api
      (fun j => if h : j < 5 then L j h else []) 5 (by omega)
      (fun j hj => ⟨hok j hj, by simp [hj, hdata j hj], by simp [hj, hlen j hj]⟩)
    unfold getReplayData
    split
    · next allTracks reqs hloop =>
        rw [hreach] at hloop
        simp [fetchTracksLoop] at hloop
        simp [← hloop.2]
    · next msg reqs hloop =>
        rw [hreach] at hloop
        simp [fetchTracksLoop] at hloop

/-- Five full pages of ten tracks each, for concrete instantiations. -/
def fullPages : List (List Nat) :=
  [List.range 10, List.range 10, List.range 10, List.range 10, List.range 10]

/-- Witness for C10: an endpoint serving five full pages — at most and
exactly 5 requests, and the 50 aggregated items stay within the cap. -/
theorem pagination_bounded_witness :
    (getReplayData (α := Nat) none (pagesAPI fullPages)).requests ≤ 5 ∧
    (getReplayData (α := Nat) none (pagesAPI fullPages)).requests = 5 ∧
    (fullPages.flatten).length ≤ 50 := by
  have h := pagination_bounded_requests_and_items (α := Nat) none (pagesAPI fullPages)
  refine ⟨h.1, h.2.2 ?_, ?_⟩
  · intro j hj
    interval_cases j <;> exact ⟨rfl, List.range 10, rfl, rfl⟩
  · have hb : ∀ off l, ((pagesAPI fullPages off).data = some l) → l.length ≤ 10 := by
      intro off l hl
      have : l = fullPages.getD (off / 10) [] := by
        simpa [pagesAPI, okPage] using hl.symm
      subst this
      rcases hn : off / 10 with _ | _ | _ | _ | _ | n <;> simp [fullPages]
    exact h.2.1 hb fullPages.flatten rfl

/-- C4: when the page request at offset `10·i` (`i > 0`) fails after `i`
successful non-empty pages, `getReplayData` fails: `recentTracks` — cleared
on entry whatever the previous fetch had left there — stays `null`, and an
error is surfaced; the gathered pages are never returned. -/
theorem fetch_error_discards_gathered_pages {α : Type}
    (prev : Option (TracksPayload α)) (api : FetchEnv α) (i : Nat)
    (L : Nat → List α)
    (hpos : 0 < i) (hle : i ≤ 4)
    (hpages : ∀ j, j < i → (api (10 * j)).ok = true ∧
      (api (10 * j)).data = some (L j) ∧ 0 < (L j).length)
    (hfail : (api (10 * i)).ok = false) :
    (getReplayData prev api).recentTracks = none ∧
    (getReplayData prev api).error ≠ "" := by
  have hreach := fetchTracksLoop_reach api L i (by omega) hpages
  have hfuel : 5 - i = (5 - i - 1) + 1 := by omega
  rw [hfuel, fetchTracksLoop_stop_error api _ _ _ _ (by omega) hfail] at hreach
  unfold getReplayData
  split
  · next allTracks reqs hloop =>
      rw [hreach] at hloop
      simp at hloop
  · next msg reqs hloop =>
      rw [hreach] at hloop
      refine ⟨rfl, ?_⟩
      exact string_append_ne_empty _ _ (by decide)

/-- An endpoint whose first page succeeds with ten tracks and whose second
page is rate-limited. -/
def rateLimitedAPI : FetchEnv Nat := fun off =>
  if off = 0 then okPage (List.range 10)
  else { ok := false, status := 429, statusText := "Too Many Requests", data := none }

/-- Witness for C4: the rate-limited endpoint — the ten gathered tracks
are discarded and an error is surfaced. -/
theorem fetch_error_discards_witness :
    (getReplayData none rateLimitedAPI).recentTracks = none ∧
    (getReplayData none rateLimitedAPI).error ≠ "" :=
  fetch_error_discards_gathered_pages none rateLimitedAPI 1
    (fun _ => List.range 10) (by decide) (by decide)
    (by
      intro j hj
      interval_cases j
      exact ⟨rfl, rfl, by decide⟩)
    rfl

/-- The pages with which a drained 23-track endpoint answers requests of
`limit=10`: two full pages, then a page of three. -/
def tracks23Pages : List (List Nat) :=
  [(List.range 23).take 10, ((List.range 23).drop 10).take 10, (List.range 23).drop 20]

/-- Counterexample to C1 as stated: with 23 tracks in pages of 10, the loop
does not stop at the short page — it pushes the 3 items and probes offset
30 as well, so 4 requests are issued, not 3 (the 23 items themselves are
returned, in order). -/
theorem pagination_23_tracks_counterexample :
    (getReplayData (α := Nat) none (pagesAPI tracks23Pages)).requests = 4 ∧
    ¬ (getReplayData (α := Nat) none (pagesAPI tracks23Pages)).requests = 3 ∧
    (getReplayData (α := Nat) none (pagesAPI tracks23Pages)).recentTracks
      = some { data := some (List.range 23) } := by
  refine ⟨rfl, by decide, ?_⟩
  rfl

/-- C1 as amended: when the endpoint serves `n-1` full pages of 10 and then
one page of `k < 10` items, the aggregation returns all `(n-1)·10 + k`
items in fetch order, but the loop stops only on an empty page or at the
5-page cap: it issues `n` requests when the short page is empty or when it
is the fifth page, and `n + 1` requests otherwise (the extra request is
the probe that observes the empty page after the short one). -/
theorem pagination_full_then_short_amended {α : Type}
    (prev : Option (TracksPayload α)) (full : List (List α)) (short : List α)
    (hm : full.length ≤ 4)
    (hfull : ∀ p ∈ full, p.length = 10)
    (hshort : short.length < 10) :
    (getReplayData prev (pagesAPI (full ++ [short]))).recentTracks
      = some { data := some (full ++ [short]).flatten } ∧
    (getReplayData prev (pagesAPI (full ++ [short]))).error = "" ∧
    (getReplayData prev (pagesAPI (full ++ [short]))).requests
      = (if short.length = 0 ∨ full.length = 4
         then full.length + 1 else full.length + 2) := by
  have hdata : ∀ j : Nat, (pagesAPI (full ++ [short]) (10 * j)).data
      = some ((full ++ [short]).getD j []) := by
    intro j
    simp [pagesAPI, okPage, Nat.mul_div_cancel_left j (show 0 < 10 by norm_num)]
  have hLlen : ∀ j, j < full.length → ((full ++ [short]).getD j []).length = 10 := by
    intro j hj
    rw [List.getD_append _ _ _ j hj, List.getD_eq_getElem _ _ hj]
    exact hfull _ (List.getElem_mem _)
  have hreach := fetchTracksLoop_reach (pagesAPI (full ++ [short]))
    (fun j => (full ++ [short]).getD j []) full.length (by omega)
    (fun j hj => ⟨rfl, hdata j, by rw [hLlen j hj]; norm_num⟩)
  have hmapfull : (List.range full.length).map
      (fun j => (full ++ [short]).getD j []) = full := by
    apply List.ext_getElem
    · simp
    · intro n h1 h2
      simp only [List.getElem_map, List.getElem_range]
      rw [List.getD_append _ _ _ n (by simpa using h2),
        List.getD_eq_getElem _ _ (by simpa using h2)]
  rw [hmapfull] at hreach
  have hshortdata : (pagesAPI (full ++ [short]) (10 * full.length)).data
      = some short := by
    rw [hdata full.length]
    rw [List.getD_append_right _ _ _ _ (Nat.le_refl _)]
    simp
  by_cases hk : short.length = 0
  · -- the short page is empty: the loop breaks there, `n` requests total
    have hempty : short = [] := List.eq_nil_of_length_eq_zero hk
    have hfuel : 5 - full.length = (5 - full.length - 1) + 1 := by omega
    rw [hfuel, fetchTracksLoop_stop_empty _ _ _ _ _ short (by omega) rfl
      hshortdata hk] at hreach
    unfold getReplayData
    split
    · next allTracks reqs hloop =>
        rw [hreach] at hloop
        have h1 : allTracks = full.flatten := by
          have := congrArg Prod.fst hloop
          simpa using this.symm
        have h2 : reqs = full.length + 1 := by
          have := congrArg Prod.snd hloop
          simpa using this.symm
        subst h1
        subst h2
        refine ⟨?_, rfl, by simp [hk]⟩
        rw [List.flatten_concat]
        simp [hempty]
    · next msg reqs hloop =>
        rw [hreach] at hloop
        simp at hloop
  · -- the short page is non-empty: its items are pushed and the loop goes on
    have hkpos : 0 < short.length := Nat.pos_of_ne_zero hk
    have hfuel : 5 - full.length = (5 - full.length - 1) + 1 := by omega
    rw [hfuel, fetchTracksLoop_step _ _ _ _ _ short (by omega) rfl
      hshortdata hkpos] at hreach
    by_cases hm4 : full.length = 4
    · -- the short page was the fifth one: the guard stops the loop
      rw [hm4] at hreach
      rw [show fetchTracksLoop (pagesAPI (full ++ [short])) (5 - 4 - 1) (10 * 4 + 10)
          (full.flatten ++ short) (4 + 1)
          = (.ok (full.flatten ++ short), 4 + 1) from rfl] at hreach
      unfold getReplayData
      split
      · next allTracks reqs hloop =>
          rw [hreach] at hloop
          have h1 : allTracks = full.flatten ++ short := by
            have := congrArg Prod.fst hloop
            simpa using this.symm
          have h2 : reqs = 4 + 1 := by
            have := congrArg Prod.snd hloop
            simpa using this.symm
          subst h1
          subst h2
          refine ⟨?_, rfl, by simp [hm4]⟩
          rw [List.flatten_concat]
      · next msg reqs hloop =>
          rw [hreach] at hloop
          simp at hloop
    · -- at most four full pages: one more request observes the empty page
      have hnextdata : (pagesAPI (full ++ [short]) (10 * full.length + 10)).data
          = some ([] : List α) := by
        have h10 : 10 * full.length + 10 = 10 * (full.length + 1) := by ring
        rw [h10, hdata (full.length + 1)]
        rw [List.getD_eq_default _ _ (by simp)]
      have hfuel2 : 5 - full.length - 1 = (5 - full.length - 2) + 1 := by omega
      rw [hfuel2, fetchTracksLoop_stop_empty _ _ _ _ _ [] (by omega) rfl
        hnextdata rfl] at hreach
      unfold getReplayData
      split
      · next allTracks reqs hloop =>
          rw [hreach] at hloop
          have h1 : allTracks = full.flatten ++ short := by
            have := congrArg Prod.fst hloop
            simpa using this.symm
          have h2 : reqs = full.length + 1 + 1 := by
            have := congrArg Prod.snd hloop
            simpa using this.symm
          subst h1
          subst h2
          refine ⟨?_, rfl, by simp [hk, hm4]⟩
          rw [List.flatten_concat]
      · next msg reqs hloop =>
          rw [hreach] at hloop
          simp at hloop

/-- Witness for the amended C1: the 23-track endpoint — all 23 items in
order, at the price of 4 requests. -/
theorem pagination_full_then_short_witness :
    (getReplayData (α := Nat) none
        (pagesAPI ([(List.range 23).take 10, ((List.range 23).drop 10).take 10]
          ++ [(List.range 23).drop 20]))).recentTracks
      = some { data := some ([(List.range 23).take 10,
          ((List.range 23).drop 10).take 10] ++ [(List.range 23).drop 20]).flatten } ∧
    (getReplayData (α := Nat) none
        (pagesAPI ([(List.range 23).take 10, ((List.range 23).drop 10).take 10]
          ++ [(List.range 23).drop 20]))).error = "" ∧
    (getReplayData (α := Nat) none
        (pagesAPI ([(List.range 23).take 10, ((List.range 23).drop 10).take 10]
          ++ [(List.range 23).drop 20]))).requests
      = (if ((List.range 23).drop 20).length = 0
            ∨ ([(List.range 23).take 10, ((List.range 23).drop 10).take 10] :
                List (List Nat)).length = 4
         then [(List.range 23).take 10, ((List.range 23).drop 10).take 10].length + 1
         else [(List.range 23).take 10, ((List.range 23).drop 10).take 10].length + 2) :=
  pagination_full_then_short_amended none
    [(List.range 23).take 10, ((List.range 23).drop 10).take 10]
    ((List.range 23).drop 20) (by decide) (by decide) (by decide)

/-! ## Lemmas about the artist normalizer -/

/-- The loop body, factored through the contribution filter. -/
theorem artistStep_eq (m : List (Option String × ArtistRecord))
    (item : ReplayItem) :
    artistStep m item
      = match artistOf item with
        | some a => mapSet m a.name (mkArtistRecord a)
        | none => m := by
  unfold artistStep artistOf
  cases item.attributes with
  | none => rfl
  | some a => by_cases ht : item.type = "artists" <;> simp [ht]

/-- Setting a key absent from the map appends the binding. -/
theorem mapSet_of_fresh (m : List (Option String × ArtistRecord))
    (k : Option String) (v : ArtistRecord)
    (h : ∀ kv ∈ m, kv.1 ≠ k) :
    mapSet m k v = m ++ [(k, v)] := by
  unfold mapSet
  rw [if_neg]
  simp only [List.any_eq_true, decide_eq_true_eq, not_exists, not_and]
  exact fun kv hkv => h kv hkv

/-- When the artist names are pairwise distinct and fresh for the
accumulated map, the `Map`-building loop is a plain in-order append of one
binding per artist item. -/
theorem foldl_artistStep_of_nodup :
    ∀ (items : List ReplayItem) (m : List (Option String × ArtistRecord)),
      ((items.filterMap artistOf).map (fun a => a.name)).Nodup →
      (∀ kv ∈ m, ∀ a ∈ items.filterMap artistOf, kv.1 ≠ a.name) →
      items.foldl artistStep m
        = m ++ (items.filterMap artistOf).map (fun a => (a.name, mkArtistRecord a)) := by
  intro items
  induction items with
  | nil => intro m _ _; simp
  | cons it rest ih =>
      intro m hnodup hfresh
      rw [List.foldl_cons, artistStep_eq]
      cases hof : artistOf it with
      | none =>
          simp only [List.filterMap_cons, hof] at hnodup hfresh ⊢
          exact ih m hnodup hfresh
      | some a =>
          simp only [List.filterMap_cons, hof] at hnodup hfresh ⊢
          have hfresh_a : ∀ kv ∈ m, kv.1 ≠ a.name := by
            intro kv hkv
            exact hfresh kv hkv a (List.mem_cons_self _ _)
          rw [mapSet_of_fresh m a.name (mkArtistRecord a) hfresh_a]
          rw [ih (m ++ [(a.name, mkArtistRecord a)]) (by simpa using hnodup.tail) ?_]
          · simp
          · intro kv hkv b hb
            rcases List.mem_append.mp hkv with hkm | hksingle
            · exact hfresh kv hkm b (List.mem_cons_of_mem _ hb)
            · have : kv = (a.name, mkArtistRecord a) := by simpa using hksingle
              subst this
              intro hc
              have hmem : a.name ∈ (rest.filterMap artistOf).map (fun x => x.name) :=
                List.mem_map.mpr ⟨b, hb, hc.symm⟩
              exact (List.nodup_cons.mp hnodup).1 hmem

/-- Under distinct names, the artists map holds exactly one binding per
artist item, in input order. -/
theorem buildArtistsMap_of_nodup (items : List ReplayItem)
    (hnodup : ((items.filterMap artistOf).map (fun a => a.name)).Nodup) :
    (buildArtistsMap items).map (fun kv => kv.2)
      = (items.filterMap artistOf).map mkArtistRecord := by
  unfold buildArtistsMap
  rw [foldl_artistStep_of_nodup items [] hnodup (by simp)]
  simp [List.map_map, Function.comp]

/-- A replay response whose two artist items arrive in ascending play-count
order (the opposite of the rank order the normalizer produces). -/
def unsortedReplay : Option (TracksPayload ReplayItem) :=
  some ⟨some [⟨"artists", some ⟨some "A", some 1, some 0⟩⟩,
              ⟨"artists", some ⟨some "B", some 5, some 0⟩⟩]⟩

/-- Counterexample to C5 as stated: `extractTopArtists` re-sorts by
descending play count, so the output order `B, A` differs from the input
order `A, B`. -/
theorem artists_not_input_order_counterexample :
    (artistItems unsortedReplay).map (fun a => a.name) = [some "A", some "B"] ∧
    (extractTopArtists unsortedReplay).map (fun r => r.name) = [some "B", some "A"] ∧
    ([some "B", some "A"] : List (Option String)) ≠ [some "A", some "B"] := by
  refine ⟨by decide, by decide, by decide⟩

/-- C5 as amended: the artist normalizer deduplicates by name and stably
re-sorts by descending play count — its output is always sorted that way,
and it equals the input order (truncated to 20) exactly when the artist
items already carry pairwise-distinct names in descending play-count
order, as the spec assumes of the API; recent-track extraction preserves
the chronological input order (the record at output position `i` comes
from input position `i`). -/
theorem normalizer_order_amended :
    (∀ d, List.Sorted byPlayCountDesc (extractTopArtists d)) ∧
    (∀ (items : List RecentItem) (i : Nat),
      (extractRecentTracks (some { data := some items }))[i]?
        = (items[i]?).map mkTrackRecord) ∧
    (∀ d, ((artistItems d).map (fun a => a.name)).Nodup →
      List.Sorted byPlayCountDesc ((artistItems d).map mkArtistRecord) →
      extractTopArtists d = ((artistItems d).map mkArtistRecord).take 20) := by
  refine ⟨?_, ?_, ?_⟩
  · intro d
    cases d with
    | none => simp [extractTopArtists]
    | some payload =>
        cases hd : payload.data with
        | none => simp [extractTopArtists, hd]
        | some items =>
            simp only [extractTopArtists, hd]
            exact List.Pairwise.sublist (List.take_sublist 20 _)
              (List.sorted_insertionSort byPlayCountDesc _)
  · intro items i
    simp [extractRecentTracks]
  · intro d hnodup hsorted
    cases d with
    | none => simp [extractTopArtists, artistItems]
    | some payload =>
        cases hd : payload.data with
        | none => simp [extractTopArtists, artistItems, hd]
        | some items =>
            simp only [artistItems, hd] at hnodup hsorted ⊢
            have hb := buildArtistsMap_of_nodup items hnodup
            simp only [extractTopArtists, hd]
            rw [hb, List.Sorted.insertionSort_eq hsorted]

/-- A replay response whose artist items are already distinct and in
descending play-count order. -/
def sortedReplay : Option (TracksPayload ReplayItem) :=
  some ⟨some [⟨"artists", some ⟨some "X", some 9, some 0⟩⟩,
              ⟨"artists", some ⟨some "Y", some 4, some 0⟩⟩]⟩

/-- Witness for the amended C5: sortedness of a concrete output,
order-preservation of a concrete recent-track extraction, and
input-order output on the already-sorted replay response. -/
theorem normalizer_order_amended_witness :
    List.Sorted byPlayCountDesc (extractTopArtists sortedReplay) ∧
    (extractRecentTracks
        (some { data := some [{ attributes := none }, { attributes := none }] }))[1]?
      = (([{ attributes := none }, { attributes := none }] :
          List RecentItem)[1]?).map mkTrackRecord ∧
    extractTopArtists sortedReplay
      = ((artistItems sortedReplay).map mkArtistRecord).take 20 :=
  ⟨normalizer_order_amended.1 sortedReplay,
   normalizer_order_amended.2.1 [{ attributes := none }, { attributes := none }] 1,
   normalizer_order_amended.2.2 sortedReplay (by decide) (by decide)⟩

end MusicGrabber
